import Mathlib

/-!
Verification of `src/supplemental-resources/pdf_to_text_temp.py`, a
command-line script that extracts the text of each page of a PDF document,
formats every page as a marked section, joins the sections and writes the
result to an output file.

The script is embedded shallowly: a page's extraction result is an
`Option String` (`none` models `extract_text()` returning `None`), the
PDF library and the file system are an abstract `World` (an oracle mapping
a path to the pages of the document stored there, plus a writability
predicate), and a run is a pure function from the argument vector and the
world to an effects trace and an outcome.
-/

namespace PdfToText

/-- The result of a `page.extract_text()` call that returns: `none` models
a `None` return (extraction produced no text). -/
abbrev PageText := Option String

/-- One page of an opened document: `ok r` models `page.extract_text()`
returning `r` (with `none` for `None`), while `raise` models the call
raising an exception, which the script does not catch. -/
inductive PageExtract where
  | ok (r : PageText)
  | raise
deriving DecidableEq, Repr

/-- The extraction loop's interaction with the library: the per-page
results in order, or `none` as soon as some page's extraction raises
(the loop aborts at the first uncaught exception). -/
def extractAll : List PageExtract → Option (List PageText)
  | [] => some []
  | .ok r :: ps => (extractAll ps).map (fun ts => r :: ts)
  | .raise :: _ => none

/-- Models `page.extract_text() or ""`: a falsy result (`None` or the
empty string) becomes the empty string. -/
def pageText (p : PageText) : String :=
  p.getD ""

/-- The per-page section string `f"--- PAGE {idx} ---\n{text}"`
(line 16 of the script). -/
def sectionOf (idx : Nat) (p : PageText) : String :=
  "--- PAGE " ++ toString idx ++ " ---\n" ++ pageText p

/-- The loop `for idx, page in enumerate(reader.pages, start=1)`,
accumulating one section per page; `idx` is the 1-based index carried by
`enumerate(·, start=1)`. -/
def sectionsFrom (idx : Nat) : List PageText → List String
  | [] => []
  | p :: ps => sectionOf idx p :: sectionsFrom (idx + 1) ps

/-- The `sections` list of the script: indices start at 1. -/
def sections (pages : List PageText) : List String :=
  sectionsFrom 1 pages

/-- `"\n\n".join(sections)`: the Output text written to the target. -/
def outputText (pages : List PageText) : String :=
  String.intercalate "\n\n" (sections pages)

/-- The completion message `f"Wrote {target} ({len(reader.pages)} pages)"`
(line 19 of the script). -/
def completionMsg (target : String) (pageCount : Nat) : String :=
  "Wrote " ++ target ++ " (" ++ toString pageCount ++ " pages)"

/-- The usage message raised by `SystemExit` when fewer than two
command-line arguments are supplied (line 7 of the script). -/
def usageMsg : String :=
  "Usage: python pdf_to_text_temp.py <input.pdf> <output.txt>"

/-- The text encoding passed to `Path.write_text`; the script always
passes `encoding="utf-8"`. -/
inductive Encoding where
  | utf8
deriving DecidableEq, Repr

/-- The bytes `Path.write_text` puts on disk for a given encoding. -/
def encodeText : Encoding → String → ByteArray
  | .utf8, s => s.toUTF8

/-- An observable side effect of a run, in order of occurrence. -/
inductive Effect where
  | readInput (path : String)
  | write (path : String) (enc : Encoding) (text : String)
  | writeFail (path : String)
  | print (msg : String)
deriving DecidableEq, Repr

/-- How a run terminates. -/
inductive Outcome where
  | usageError (msg : String)
  | openError
  | extractError
  | writeError
  | success
deriving DecidableEq, Repr

/-- The process exit status determined by the outcome: a `SystemExit`
carrying a message and any uncaught exception both exit with status 1. -/
def exitCode : Outcome → Nat
  | .usageError _ => 1
  | .openError => 1
  | .extractError => 1
  | .writeError => 1
  | .success => 0

/-- The environment of a run. `readDoc p` is the document the PDF library
yields for path `p` (`none`: `PdfReader` fails, e.g. the file is missing);
`canWrite p` says whether `Path.write_text` succeeds at `p`. Both are
fixed functions of the path, which is the spec's assumption that
per-page extraction by the library is deterministic. -/
structure World where
  readDoc : String → Option (List PageExtract)
  canWrite : String → Bool

/-- The result of a run: the ordered effects trace and the outcome. -/
structure RunResult where
  effects : List Effect
  outcome : Outcome
deriving DecidableEq, Repr

/-- The whole script as a function of `sys.argv` and the world:
if `len(sys.argv) < 3`, raise `SystemExit` with the usage message before
touching either path; otherwise open `argv[1]`, build the sections,
write the joined text to `argv[2]` with UTF-8 encoding in a single
write, and print the completion message. Arguments past `argv[2]` are
never read. -/
def run (argv : List String) (w : World) : RunResult :=
  match argv with
  | _prog :: source :: target :: _rest =>
    match w.readDoc source with
    | none =>
      { effects := [.readInput source], outcome := .openError }
    | some doc =>
      match extractAll doc with
      | none =>
        { effects := [.readInput source], outcome := .extractError }
      | some pages =>
        let out := outputText pages
        if w.canWrite target then
          { effects := [.readInput source, .write target .utf8 out,
                        .print (completionMsg target doc.length)],
            outcome := .success }
        else
          { effects := [.readInput source, .writeFail target],
            outcome := .writeError }
  | _ =>
    { effects := [], outcome := .usageError usageMsg }

/-- The text content a run leaves at path `p`, `none` when the run never
(successfully) writes `p`. -/
def writtenText (r : RunResult) (p : String) : Option String :=
  r.effects.foldl
    (fun acc e =>
      match e with
      | .write q _ t => if q = p then some t else acc
      | _ => acc)
    none

/-- The bytes a run leaves at path `p`, through the encoding each write
effect carries. -/
def writtenBytes (r : RunResult) (p : String) : Option ByteArray :=
  r.effects.foldl
    (fun acc e =>
      match e with
      | .write q enc t => if q = p then some (encodeText enc t) else acc
      | _ => acc)
    none

/-- The successful write effects of a run. -/
def writeEvents (r : RunResult) : List Effect :=
  r.effects.filter
    (fun e => match e with | .write _ _ _ => true | _ => false)

/-- The world after a run: every path a write effect reached now holds the
written text; the document oracle is untouched (extraction is a fixed
function of the path). -/
def filesAfter (r : RunResult) (files : String → Option String) :
    String → Option String :=
  fun p =>
    match writtenText r p with
    | some t => some t
    | none => files p

/-- The byte contents of the file system after a run, given the contents
before it: paths the run wrote hold the newly written bytes, every other
path is untouched. -/
def bytesAfter (r : RunResult) (disk : String → Option ByteArray) :
    String → Option ByteArray :=
  fun p =>
    match writtenBytes r p with
    | some b => some b
    | none => disk p

/-- A concrete environment used to instantiate the theorems: `in.pdf`
holds the spec's three-page scenario document, every other path fails to
open, and every path except `locked.txt` is writable. -/
def sampleWorld : World where
  readDoc := fun p =>
    if p = "in.pdf" then
      some [.ok (some "Hello"), .ok (some ""), .ok (some "World")]
    else none
  canWrite := fun p => !(p == "locked.txt")

/-! Helper lemmas about the section-building loop. -/

theorem sectionsFrom_length (n : Nat) (l : List PageText) :
    (sectionsFrom n l).length = l.length := by
  induction l generalizing n with
  | nil => rfl
  | cons p ps ih => simp [sectionsFrom, ih]

theorem sectionsFrom_get? (n : Nat) (l : List PageText) (k : Nat) :
    (sectionsFrom n l).get? k = (l.get? k).map (fun p => sectionOf (n + k) p) := by
  induction l generalizing n k with
  | nil => simp [sectionsFrom]
  | cons p ps ih =>
    cases k with
    | zero => simp [sectionsFrom]
    | succ k =>
      have h := ih (n + 1) k
      have e : n + 1 + k = n + (k + 1) := by omega
      rw [e] at h
      simpa [sectionsFrom] using h

theorem sectionsFrom_eq_zipWith (n : Nat) (l : List PageText) :
    sectionsFrom n l =
      List.zipWith sectionOf (List.range' n l.length) l := by
  induction l generalizing n with
  | nil => rfl
  | cons p ps ih => simp [sectionsFrom, List.range'_succ, ih]

theorem extractAll_map_ok (texts : List PageText) :
    extractAll (texts.map PageExtract.ok) = some texts := by
  induction texts with
  | nil => rfl
  | cons t ts ih => simp [extractAll, ih]

/-! The claims. -/

/-- C1: for a document whose N pages extract to texts t1..tN (an absent
result standing for the empty string), the Output text is the join, with
separator "\n\n", of the strings "--- PAGE i ---\n" ++ ti for i = 1..N in
page order — so the sections carry exactly N markers, numbered 1..N in
ascending contiguous order — and a zero-page document yields the empty
Output text. -/
theorem output_joins_marked_sections_in_order (pages : List PageText) :
    outputText pages =
      String.intercalate "\n\n"
        (List.zipWith
          (fun i p => "--- PAGE " ++ toString i ++ " ---\n" ++ pageText p)
          (List.range' 1 pages.length) pages)
    ∧ (sections pages).length = pages.length
    ∧ outputText ([] : List PageText) = "" := by
  refine ⟨?_, sectionsFrom_length 1 pages, rfl⟩
  rw [outputText, sections, sectionsFrom_eq_zipWith]
  rfl

/-- C2: the three-page document extracting to "Hello", "", "World"
produces exactly the Output text of the spec's concrete scenario, and a
run over it writes that text and prints "Wrote out.txt (3 pages)". -/
theorem three_page_scenario :
    outputText [some "Hello", some "", some "World"] =
      "--- PAGE 1 ---\nHello\n\n--- PAGE 2 ---\n\n\n--- PAGE 3 ---\nWorld"
    ∧ run ["python pdf_to_text_temp.py", "in.pdf", "out.txt"] sampleWorld =
      { effects :=
          [.readInput "in.pdf",
           .write "out.txt" .utf8
             "--- PAGE 1 ---\nHello\n\n--- PAGE 2 ---\n\n\n--- PAGE 3 ---\nWorld",
           .print "Wrote out.txt (3 pages)"],
        outcome := .success } :=
  ⟨rfl, by decide⟩

/-- C3: a page whose extraction yields no text is not an error: a
document all of whose pages return (possibly `None`) extracts fully, the
`None` page's section is exactly its marker followed by empty content,
and every other page still gets its section. -/
theorem none_extraction_not_an_error (texts : List PageText) (k : Nat)
    (h : texts.get? k = some none) :
    extractAll (texts.map PageExtract.ok) = some texts
    ∧ (sections texts).get? k =
        some ("--- PAGE " ++ toString (k + 1) ++ " ---\n")
    ∧ (sections texts).length = texts.length := by
  refine ⟨extractAll_map_ok texts, ?_, sectionsFrom_length 1 texts⟩
  rw [sections, sectionsFrom_get? 1 texts k, h]
  simp [sectionOf, pageText, Nat.add_comm, String.append_empty]

/-- Witness for C3 at the concrete document ["a", None]. -/
theorem none_extraction_not_an_error_witness :
    extractAll ([some "a", none].map PageExtract.ok) = some [some "a", none]
    ∧ (sections [some "a", none]).get? 1 =
        some ("--- PAGE " ++ toString (1 + 1) ++ " ---\n")
    ∧ (sections [some "a", none]).length = ([some "a", none] : List PageText).length :=
  none_extraction_not_an_error [some "a", none] 1 rfl

/-- C4: with fewer than two command-line arguments (`len(sys.argv) < 3`)
the run stops at once with the usage message and a non-zero exit status,
and its effects trace is empty — no file-system access to either path
has happened. -/
theorem usage_error_before_any_io (argv : List String) (w : World)
    (h : argv.length < 3) :
    run argv w = { effects := [], outcome := .usageError usageMsg }
    ∧ exitCode (run argv w).outcome ≠ 0 := by
  rcases argv with _ | ⟨p, _ | ⟨a, _ | ⟨b, rest⟩⟩⟩
  · exact ⟨rfl, Nat.one_ne_zero⟩
  · exact ⟨rfl, Nat.one_ne_zero⟩
  · exact ⟨rfl, Nat.one_ne_zero⟩
  · simp [List.length_cons] at h
    omega

/-- Witness for C4 at a one-argument invocation. -/
theorem usage_error_before_any_io_witness :
    run ["python pdf_to_text_temp.py"] sampleWorld =
      { effects := [], outcome := .usageError usageMsg }
    ∧ exitCode (run ["python pdf_to_text_temp.py"] sampleWorld).outcome ≠ 0 :=
  usage_error_before_any_io ["python pdf_to_text_temp.py"] sampleWorld
    (by decide)

/-- C5: the run is all-or-nothing: a path ends up written only when the
document opened, every page extracted and the target was writable, and
then the only written path is the target, holding the full Output text;
moreover no run performs more than one write. In particular an open
failure (missing input) leaves no file at the output path, and a write
failure leaves no partial file. -/
theorem all_or_nothing_single_write (p source target : String)
    (rest : List String) (w : World) (q : String) :
    writtenText (run (p :: source :: target :: rest) w) q =
      (match w.readDoc source with
       | none => none
       | some doc =>
         match extractAll doc with
         | none => none
         | some pages =>
           if w.canWrite target ∧ q = target then some (outputText pages)
           else none)
    ∧ (writeEvents (run (p :: source :: target :: rest) w)).length ≤ 1 := by
  cases hdoc : w.readDoc source with
  | none => simp [run, hdoc, writtenText, writeEvents]
  | some doc =>
    cases hex : extractAll doc with
    | none => simp [run, hdoc, hex, writtenText, writeEvents]
    | some pages =>
      cases hw : w.canWrite target with
      | false => simp [run, hdoc, hex, hw, writtenText, writeEvents]
      | true =>
        by_cases hq : q = target
        · subst hq; simp [run, hdoc, hex, hw, writtenText, writeEvents]
        · have hq' : ¬ (target = q) := fun e => hq e.symm
          simp [run, hdoc, hex, hw, hq, hq', writtenText, writeEvents]

/-- C6: on success the run writes the Output text to the target path and
prints exactly "Wrote {target} ({page count} pages)", the page count
being the number of pages of the document. -/
theorem success_writes_output_and_reports (p source target : String)
    (rest : List String) (w : World) (doc : List PageExtract)
    (pages : List PageText) (hdoc : w.readDoc source = some doc)
    (hex : extractAll doc = some pages) (hw : w.canWrite target = true) :
    run (p :: source :: target :: rest) w =
      { effects := [.readInput source,
                    .write target .utf8 (outputText pages),
                    .print ("Wrote " ++ target ++ " ("
                            ++ toString doc.length ++ " pages)")],
        outcome := .success }
    ∧ writtenText (run (p :: source :: target :: rest) w) target =
        some (outputText pages) := by
  constructor
  · simp [run, hdoc, hex, hw, completionMsg]
  · simp [run, hdoc, hex, hw, writtenText]

/-- Witness for C6 on the three-page sample world. -/
theorem success_writes_output_and_reports_witness :
    run ["python pdf_to_text_temp.py", "in.pdf", "out.txt"] sampleWorld =
      { effects :=
          [.readInput "in.pdf",
           .write "out.txt" .utf8
             (outputText [some "Hello", some "", some "World"]),
           .print "Wrote out.txt (3 pages)"],
        outcome := .success }
    ∧ writtenText
        (run ["python pdf_to_text_temp.py", "in.pdf", "out.txt"] sampleWorld)
        "out.txt" = some (outputText [some "Hello", some "", some "World"]) :=
  success_writes_output_and_reports "python pdf_to_text_temp.py" "in.pdf"
    "out.txt" [] sampleWorld
    [.ok (some "Hello"), .ok (some ""), .ok (some "World")]
    [some "Hello", some "", some "World"] (by decide) (by decide) (by decide)

/-- C7: running the script twice with the same arguments against the
same world — the library's extraction being a fixed function of the path
models its assumed determinism — leaves the same bytes on disk as
running it once: the second run's output file is byte-identical. -/
theorem rerun_leaves_identical_bytes (argv : List String) (w : World)
    (disk : String → Option ByteArray) (q : String) :
    bytesAfter (run argv w) (bytesAfter (run argv w) disk) q =
      bytesAfter (run argv w) disk q := by
  cases h : writtenBytes (run argv w) q <;> simp [bytesAfter, h]

/-- C8: the exit status is 0 exactly on a fully successful run; every
failure the script can hit — usage error, open error, an extraction
exception, a write error — escapes uncaught and exits non-zero. -/
theorem exit_zero_iff_success (argv : List String) (w : World) :
    exitCode (run argv w).outcome = 0 ↔ (run argv w).outcome = .success := by
  cases h : (run argv w).outcome <;> simp [exitCode]

/-- C9: the bytes a run leaves at any path are exactly the UTF-8
encoding of the text it leaves there: every write carries the encoding
"utf-8" the script passes to `write_text`. -/
theorem written_bytes_are_utf8_of_text (argv : List String) (w : World)
    (q : String) :
    writtenBytes (run argv w) q =
      (writtenText (run argv w) q).map String.toUTF8 := by
  rcases argv with _ | ⟨p, _ | ⟨s, _ | ⟨t, rest⟩⟩⟩
  · simp [run, writtenBytes, writtenText]
  · simp [run, writtenBytes, writtenText]
  · simp [run, writtenBytes, writtenText]
  · cases hdoc : w.readDoc s with
    | none => simp [run, hdoc, writtenBytes, writtenText]
    | some doc =>
      cases hex : extractAll doc with
      | none => simp [run, hdoc, hex, writtenBytes, writtenText]
      | some pages =>
        cases hw : w.canWrite t with
        | false => simp [run, hdoc, hex, hw, writtenBytes, writtenText]
        | true =>
          by_cases hq : t = q
          · subst hq
            simp [run, hdoc, hex, hw, writtenBytes, writtenText, encodeText]
          · simp [run, hdoc, hex, hw, hq, writtenBytes, writtenText]

/-- C10: arguments beyond the first two positional ones are silently
ignored (and the program name is never read after the usage check): a
run with extra arguments is identical to the run on the first two. -/
theorem extra_arguments_ignored (p q source target : String)
    (rest tail : List String) (w : World) :
    run (p :: source :: target :: rest) w =
      run (q :: source :: target :: tail) w := rfl

end PdfToText
